import Mathlib

/-!
Verification development for the mostro-server trade coordinator.

The definitions below are a shallow embedding of the message ingestion
pipeline (src/src/app.rs) and of the order handlers
(src/src/app/admin_cancel.rs, admin_add_solver.rs, admin_settle.rs,
release.rs).  Public keys, order ids and invoice payloads are modelled as
natural numbers; the external nostr-sdk cryptographic primitives
(proof-of-work check, outer signature verification, gift-wrap unwrapping)
are carried as oracle fields on the event, and an idealized signature model
binds an inner signature to the key that produced it and to the signed
message.  Database rows are lists; machine integers of the source (i64
counters, u64 timestamps) are Int and Nat with explicit casts where the
source casts.
-/

namespace Mostro

/-- Public keys are opaque identifiers. -/
abbrev PubKey := Nat

/-- OrderStatus of mostro_core, as listed in the spec and used by the
handlers in src/. -/
inductive Status where
  | pending
  | waitingPayment
  | waitingBuyerInvoice
  | active
  | fiatSent
  | success
  | dispute
  | settledHoldInvoice
  | completedByAdmin
  | canceledByAdmin
  | canceled
  | cooperativelyCanceled
  | expired
deriving DecidableEq

/-- Dispute status of mostro_core. -/
inductive DisputeStatus where
  | initiated
  | inProgress
  | settled
  | sellerRefunded
  | released
deriving DecidableEq

/-- Order row, restricted to the fields read or written by the embedded
handlers. -/
structure Order where
  id : Nat
  status : Status
  seller_pubkey : Option PubKey
  buyer_pubkey : Option PubKey
  buyer_invoice : Option Nat
  hash : Option Nat
  failed_payment : Bool
  payment_attempts : Int
  amount : Int
  fee : Int
deriving DecidableEq

/-- Dispute row. -/
structure Dispute where
  id : Nat
  order_id : Nat
  status : DisputeStatus
  solver_pubkey : Option PubKey
deriving DecidableEq

/-- User row, restricted to the fields the embedded code touches. -/
structure User where
  pubkey : PubKey
  trade_index : Int
  is_solver : Bool
deriving DecidableEq

/-- Action of an inner message (mostro_core Action), covering the variants
dispatched in src/src/app.rs. -/
inductive Action where
  | newOrder
  | takeBuy
  | takeSell
  | addInvoice
  | fiatSent
  | release
  | cancel
  | payInvoice
  | dispute
  | rateUser
  | adminCancel
  | adminSettle
  | adminAddSolver
  | adminTakeDispute
deriving DecidableEq

/-- Reasons carried by CantDo replies that the embedded code uses. -/
inductive CantDoReason where
  | invalidTradeIndex
  | isNotYourDispute
  | notAllowedByStatus
  | unspecified
deriving DecidableEq

/-- Payload of an inner message; admin_add_solver expects TextMessage with
the solver pubkey. -/
inductive Payload where
  | textMessage (npubkey : Nat)
  | orderPayload
  | paymentRequest
  | disputePayload
  | rateUserPayload
deriving DecidableEq

/-- Inner message kind: { version, request_id, id (order uuid), action,
trade_index, payload }.  The field verify_ok carries the result of
mostro_core MessageKind::verify(), an external-crate well-formedness check
consulted by run() before dispatch. -/
structure MessageKind where
  version : Nat
  request_id : Option Nat
  id : Option Nat
  action : Action
  trade_index : Option Int
  payload : Option Payload
  verify_ok : Bool
deriving DecidableEq

/-- Idealized schnorr signature: records the signing key and the signed
message. -/
structure Sig where
  signer : PubKey
  signed : MessageKind
deriving DecidableEq

/-- verify_signature of mostro_core: the signature checks against key k
over message m exactly when it was produced by k over m. -/
def verify_signature (m : MessageKind) (k : PubKey) (s : Sig) : Bool :=
  decide (s.signer = k ∧ s.signed = m)

/-- has_trade_index of mostro_core MessageKind: (true, i) when the message
declares trade_index i, (false, 0) otherwise. -/
def MessageKind.has_trade_index (m : MessageKind) : Bool × Int :=
  match m.trade_index with
  | some i => (true, i)
  | none => (false, 0)

/-- Outbound messages emitted by the embedded code, tagged by recipient. -/
inductive OutMsg where
  | cantDo (dest : PubKey) (order_id : Option Nat) (reason : Option CantDoReason)
  | cooperativeCancelAccepted (dest : PubKey) (order_id : Option Nat)
  | adminSettledMsg (dest : PubKey) (order_id : Option Nat)
  | holdInvoicePaymentSettled (dest : PubKey) (order_id : Option Nat)
  | releasedMsg (dest : PubKey) (order_id : Option Nat)
  | adminCanceledMsg (dest : PubKey) (order_id : Option Nat)
  | adminAddSolverMsg (dest : PubKey)
deriving DecidableEq

/-- MostroError of mostro_core, as returned by the new-style handlers. -/
inductive MostroError where
  | mostroCantDo (reason : CantDoReason)
  | mostroInternalErr
deriving DecidableEq

/-- The persistent store: orders, disputes and users tables. -/
structure DBState where
  orders : List Order
  disputes : List Dispute
  users : List User
deriving DecidableEq

/-- Order lookup by id (Order::by_id / get_order). -/
def findOrder (orders : List Order) (oid : Nat) : Option Order :=
  orders.find? (fun o => o.id == oid)

/-- find_dispute_by_order_id of src/db (first dispute row of the order). -/
def find_dispute_by_order_id (disputes : List Dispute) (oid : Nat) : Option Dispute :=
  disputes.find? (fun d => d.order_id == oid)

/-- Status update of one order row (update_order_event commits the new
status to the store and republishes the order snapshot). -/
def updateOrderStatus (orders : List Order) (oid : Nat) (s : Status) : List Order :=
  orders.map (fun o => if o.id == oid then { o with status := s } else o)

/-- Status update of one dispute row. -/
def updateDisputeStatus (disputes : List Dispute) (did : Nat) (s : DisputeStatus) :
    List Dispute :=
  disputes.map (fun d => if d.id == did then { d with status := s } else d)

/-- Modelled from the spec: mostro_core Order::check_status is not part of
src/.  Per spec sections 4.4 and 7, a handler checking a status surfaces a
NotAllowedByStatus failure when the order status differs from the expected
one, and succeeds otherwise. -/
def Order.check_status (o : Order) (s : Status) : Except CantDoReason Unit :=
  if o.status = s then Except.ok () else Except.error CantDoReason.notAllowedByStatus

/-- Modelled from the spec: db::is_assigned_solver is not in src/db.rs.
Spec section 4.6 says a subsequent AdminSettle is permitted only from the
solver assigned to the dispute of that order, or from the admin; the check
passes exactly in those cases. -/
def is_assigned_solver (st : DBState) (admin_pk pk : PubKey) (oid : Nat) : Bool :=
  decide (pk = admin_pk) ||
    (match find_dispute_by_order_id st.disputes oid with
     | some d => decide (d.solver_pubkey = some pk)
     | none => false)

/-- Result of running one handler: the new store, the outbound messages in
order of emission, the returned error if any, the escrow effects, and
whether the handler hit a panicking unwrap of the source. -/
structure HandlerResult where
  st : DBState
  msgs : List OutMsg
  err : Option MostroError
  invoice_canceled : Bool
  invoice_settled : Bool
  payment_started : Bool
  crashed : Bool
deriving DecidableEq

/-- Handler result with no effect on the given store. -/
def HandlerResult.base (st : DBState) : HandlerResult :=
  { st := st, msgs := [], err := none, invoice_canceled := false,
    invoice_settled := false, payment_started := false, crashed := false }

/-- Embedding of admin_cancel_action (src/src/app/admin_cancel.rs).
sender is event.pubkey; mostro_pk is my_keys.public_key(), the key the
source compares the sender against.  The source unwraps msg.id and, after
the status commit, the seller and buyer pubkeys; a failing unwrap is
recorded as crashed. -/
def admin_cancel_action (sender mostro_pk : PubKey) (msg : MessageKind)
    (st : DBState) : HandlerResult :=
  match msg.id with
  | none => { HandlerResult.base st with crashed := true }
  | some order_id =>
    match findOrder st.orders order_id with
    | none => HandlerResult.base st
    | some order =>
      if sender ≠ mostro_pk then
        { HandlerResult.base st with
          msgs := [OutMsg.cantDo sender (some order.id) none] }
      else
        let canceled := order.hash.isSome
        let disputes1 :=
          match find_dispute_by_order_id st.disputes order_id with
          | some d => updateDisputeStatus st.disputes d.id DisputeStatus.sellerRefunded
          | none => st.disputes
        let orders1 := updateOrderStatus st.orders order.id Status.canceledByAdmin
        let st1 : DBState := { orders := orders1, disputes := disputes1, users := st.users }
        let adminMsg := OutMsg.adminCanceledMsg sender (some order.id)
        match order.seller_pubkey with
        | none =>
          { st := st1, msgs := [adminMsg], err := none, invoice_canceled := canceled,
            invoice_settled := false, payment_started := false, crashed := true }
        | some sp =>
          match order.buyer_pubkey with
          | none =>
            { st := st1,
              msgs := [adminMsg, OutMsg.adminCanceledMsg sp (some order.id)],
              err := none, invoice_canceled := canceled, invoice_settled := false,
              payment_started := false, crashed := true }
          | some bp =>
            { st := st1,
              msgs := [adminMsg, OutMsg.adminCanceledMsg sp (some order.id),
                       OutMsg.adminCanceledMsg bp (some order.id)],
              err := none, invoice_canceled := canceled, invoice_settled := false,
              payment_started := false, crashed := false }

/-- Embedding of admin_add_solver_action (src/src/app/admin_add_solver.rs).
sender is event.sender, rumor_pk is event.rumor.pubkey, mostro_pk is
my_keys.public_key().  User::new(public_key, 0, 1, 0, 0, trade_index)
creates the solver row; the insert fails and is only logged when the
pubkey already exists. -/
def admin_add_solver_action (sender rumor_pk mostro_pk : PubKey) (msg : MessageKind)
    (st : DBState) : HandlerResult :=
  match msg.payload with
  | some (Payload.textMessage npubkey) =>
    if sender ≠ mostro_pk then
      { HandlerResult.base st with msgs := [OutMsg.cantDo rumor_pk none none] }
    else
      let trade_index := msg.trade_index.getD 0
      let solver : User := { pubkey := npubkey, trade_index := trade_index, is_solver := true }
      let users1 :=
        if (st.users.find? (fun u => u.pubkey == npubkey)).isSome then st.users
        else st.users ++ [solver]
      { HandlerResult.base { st with users := users1 } with
        msgs := [OutMsg.adminAddSolverMsg sender] }
  | _ => HandlerResult.base st

/-- Embedding of admin_settle_action (src/src/app/admin_settle.rs).
sender is event.rumor.pubkey.  get_order failure on a missing id or order
is modelled as an internal error; is_assigned_solver and check_status are
the spec-modelled definitions above.  The source first requires the solver
gate, then errors with IsNotYourDispute unless the order status is
CooperativelyCanceled, then errors with the cause unless the status is
Dispute; the settlement tail is embedded although the two status checks
make it unreachable. -/
def admin_settle_action (sender admin_pk : PubKey) (msg : MessageKind)
    (st : DBState) : HandlerResult :=
  match msg.id with
  | none => { HandlerResult.base st with err := some MostroError.mostroInternalErr }
  | some order_id =>
    match findOrder st.orders order_id with
    | none => { HandlerResult.base st with err := some MostroError.mostroInternalErr }
    | some order =>
      if is_assigned_solver st admin_pk sender order_id = false then
        { HandlerResult.base st with
          err := some (MostroError.mostroCantDo CantDoReason.isNotYourDispute) }
      else
        match order.check_status Status.cooperativelyCanceled with
        | Except.error _ =>
          { HandlerResult.base st with
            err := some (MostroError.mostroCantDo CantDoReason.isNotYourDispute) }
        | Except.ok _ =>
          let msgs0 := [OutMsg.cooperativeCancelAccepted sender (some order.id)]
          match order.check_status Status.dispute with
          | Except.error cause =>
            { HandlerResult.base st with
              msgs := msgs0,
              err := some (MostroError.mostroCantDo cause) }
          | Except.ok _ =>
            let orders1 := updateOrderStatus st.orders order.id Status.settledHoldInvoice
            let disputes1 :=
              match find_dispute_by_order_id st.disputes order_id with
              | some d => updateDisputeStatus st.disputes d.id DisputeStatus.settled
              | none => st.disputes
            let settleMsgs :=
              [OutMsg.adminSettledMsg sender (some order.id)] ++
              (match order.seller_pubkey with
               | some sp => [OutMsg.adminSettledMsg sp (some order.id)]
               | none => []) ++
              (match order.buyer_pubkey with
               | some bp => [OutMsg.adminSettledMsg bp (some order.id)]
               | none => [])
            { st := { orders := orders1, disputes := disputes1, users := st.users },
              msgs := msgs0 ++ settleMsgs, err := none, invoice_canceled := false,
              invoice_settled := true, payment_started := true, crashed := false }

/-- Embedding of release_action (src/src/app/release.rs).  sender is
event.pubkey.  The source unwraps msg.id (crash when absent), returns
silently when the order or its seller pubkey is missing, rejects with a
CantDo message unless the status is Active, FiatSent or Dispute, rejects
with a CantDo message unless the sender is the recorded seller, and
otherwise settles the hold invoice, commits SettledHoldInvoice, notifies
both parties and starts the buyer payout. -/
def release_action (sender : PubKey) (msg : MessageKind) (st : DBState) : HandlerResult :=
  match msg.id with
  | none => { HandlerResult.base st with crashed := true }
  | some order_id =>
    match findOrder st.orders order_id with
    | none => HandlerResult.base st
    | some order =>
      match order.seller_pubkey with
      | none => HandlerResult.base st
      | some seller_pubkey_hex =>
        if order.status ≠ Status.active ∧ order.status ≠ Status.fiatSent ∧
            order.status ≠ Status.dispute then
          { HandlerResult.base st with
            msgs := [OutMsg.cantDo sender (some order.id) none] }
        else if sender ≠ seller_pubkey_hex then
          { HandlerResult.base st with
            msgs := [OutMsg.cantDo sender (some order.id) none] }
        else
          let orders1 := updateOrderStatus st.orders order.id Status.settledHoldInvoice
          let st1 : DBState := { orders := orders1, disputes := st.disputes, users := st.users }
          let settledMsg := OutMsg.holdInvoicePaymentSettled sender (some order_id)
          match order.buyer_pubkey with
          | none =>
            { st := st1, msgs := [settledMsg], err := some MostroError.mostroInternalErr,
              invoice_canceled := false, invoice_settled := true,
              payment_started := false, crashed := false }
          | some buyer =>
            { st := st1,
              msgs := [settledMsg, OutMsg.releasedMsg buyer (some order_id)],
              err := none, invoice_canceled := false, invoice_settled := true,
              payment_started := true, crashed := false }

/-- Result of check_failure_retries: the updated order, the notification
to the buyer, and whether the source unwrap of the buyer pubkey panicked. -/
structure RetryResult where
  order : Order
  msgs : List OutMsg
  crashed : Bool
deriving DecidableEq

/-- Embedding of check_failure_retries (src/src/app/release.rs lines
22-48).  retries_number is Settings::get_ln().payment_attempts.  A first
failure sets failed_payment and resets payment_attempts to 0; later
failures below the retry bound increment the counter; then the buyer is
notified and the row is saved. -/
def check_failure_retries (retries_number : Int) (order : Order) : RetryResult :=
  let order1 :=
    if order.failed_payment = false then
      { order with failed_payment := true, payment_attempts := 0 }
    else if order.payment_attempts < retries_number then
      { order with payment_attempts := order.payment_attempts + 1 }
    else order
  match order1.buyer_pubkey with
  | none => { order := order1, msgs := [], crashed := true }
  | some buyer =>
    { order := order1, msgs := [OutMsg.cantDo buyer (some order1.id) none],
      crashed := false }

/-- The rumor content is a textual encoding of [Message, Signature];
serde_json::from_str either fails on malformed text or yields the pair. -/
inductive InnerContent where
  | malformed
  | wellFormed (message : MessageKind) (sig : Sig)
deriving DecidableEq

/-- Rumor carried by the unwrapped gift wrap. -/
structure Rumor where
  pubkey : PubKey
  created_at : Nat
  content : InnerContent
deriving DecidableEq

/-- Result of unwrap_gift_wrap: the seal signer and the rumor. -/
structure UnwrappedGift where
  sender : PubKey
  rumor : Rumor
deriving DecidableEq

/-- Event kind number of a gift wrap. -/
def giftWrapKind : Nat := 1059

/-- Outer relay event.  pow_ok carries the result of event.check_pow(pow),
sig_ok the result of event.verify(), and unwrapped the result of
unwrap_gift_wrap(&my_keys, &event), all external nostr-sdk primitives. -/
structure OuterEvent where
  kind : Nat
  pubkey : PubKey
  pow_ok : Bool
  sig_ok : Bool
  unwrapped : Option UnwrappedGift
deriving DecidableEq

/-- Cast of an i64 value to u64, as in `.timestamp() as u64`. -/
def castU64 (i : Int) : Nat :=
  (i % (2 : Int) ^ 64).toNat

/-- The replay cutoff computed in run(): the timestamp of now minus 10
seconds, cast to u64. -/
def since_time (now : Nat) : Nat :=
  castU64 ((now : Int) - 10)

/-- Update of the trade index of one user row. -/
def update_user_index (users : List User) (pk : PubKey) (idx : Int) : List User :=
  users.map (fun u => if u.pubkey == pk then { u with trade_index := idx } else u)

/-- Embedding of check_trade_index (src/src/app.rs lines 68-111).  For the
trade-creating actions the user row of the sender is consulted: an
existing row is updated exactly when the declared index is greater than
the stored one and the inner signature was made by the sender over the
message, and otherwise a CantDo(InvalidTradeIndex) reply is sent; a
missing row is created with the declared index. -/
def check_trade_index (users : List User) (sender : PubKey) (m : MessageKind)
    (s : Sig) : List User × List OutMsg :=
  if m.action = Action.newOrder ∨ m.action = Action.takeBuy ∨
      m.action = Action.takeSell then
    match users.find? (fun u => u.pubkey == sender) with
    | some user =>
      match m.has_trade_index with
      | (true, index) =>
        if index > user.trade_index ∧ verify_signature m sender s = true then
          (update_user_index users sender index, [])
        else
          (users, [OutMsg.cantDo sender m.id (some CantDoReason.invalidTradeIndex)])
      | (false, _) => (users, [])
    | none =>
      match m.has_trade_index with
      | (true, trade_index) =>
        (users ++ [{ pubkey := sender, trade_index := trade_index, is_solver := false }], [])
      | (false, _) => (users, [])
  else (users, [])

/-- Outcome of processing one relay notification in the run() loop. -/
inductive Outcome where
  | droppedPow
  | ignoredKind
  | loopErrUnwrap
  | droppedStale
  | crashedParse
  | droppedInnerSig
  | handled
  | skippedVerify
deriving DecidableEq

/-- Result of one iteration of the run() loop: what happened to the event,
the resulting user table, the messages sent by check_trade_index, and the
action dispatched to a handler if any. -/
structure RunResult where
  outcome : Outcome
  users : List User
  msgs : List OutMsg
  dispatched : Option Action
deriving DecidableEq

/-- Embedding of one iteration of the event loop in run() (src/src/app.rs
lines 186-236).  Events failing the proof-of-work check are discarded, as
are events of a kind other than gift wrap.  A failing outer signature
verification only produces a warning log in the source: processing
continues, so sig_ok is never consulted below.  A failing unwrap
propagates out of run() through the question-mark operator
(loopErrUnwrap).  A rumor older than the ten-second window is discarded;
a rumor whose content does not parse as [Message, Signature] hits a
panicking unwrap (crashedParse); a failing inner signature check against
the rumor pubkey discards the event.  Then check_trade_index runs, and
the action is dispatched exactly when the inner message passes
MessageKind::verify(). -/
def processEvent (now : Nat) (users : List User) (ev : OuterEvent) : RunResult :=
  if ev.pow_ok = false then
    { outcome := Outcome.droppedPow, users := users, msgs := [], dispatched := none }
  else if ev.kind ≠ giftWrapKind then
    { outcome := Outcome.ignoredKind, users := users, msgs := [], dispatched := none }
  else
    match ev.unwrapped with
    | none =>
      { outcome := Outcome.loopErrUnwrap, users := users, msgs := [], dispatched := none }
    | some ug =>
      if ug.rumor.created_at < since_time now then
        { outcome := Outcome.droppedStale, users := users, msgs := [], dispatched := none }
      else
        match ug.rumor.content with
        | InnerContent.malformed =>
          { outcome := Outcome.crashedParse, users := users, msgs := [], dispatched := none }
        | InnerContent.wellFormed m s =>
          if verify_signature m ug.rumor.pubkey s = false then
            { outcome := Outcome.droppedInnerSig, users := users, msgs := [],
              dispatched := none }
          else
            let p := check_trade_index users ug.sender m s
            if m.verify_ok then
              { outcome := Outcome.handled, users := p.1, msgs := p.2,
                dispatched := some m.action }
            else
              { outcome := Outcome.skippedVerify, users := p.1, msgs := p.2,
                dispatched := none }

/-! Concrete sample rows used to instantiate the theorems below. -/

/-- Sample order under dispute. -/
def sampleOrder : Order :=
  { id := 10, status := Status.dispute, seller_pubkey := some 3, buyer_pubkey := some 4,
    buyer_invoice := some 1, hash := some 5, failed_payment := false,
    payment_attempts := 0, amount := 1000, fee := 10 }

/-- Sample dispute over sampleOrder, assigned to solver 2. -/
def sampleDispute : Dispute :=
  { id := 1, order_id := 10, status := DisputeStatus.inProgress, solver_pubkey := some 2 }

/-- Sample store holding sampleOrder and sampleDispute. -/
def sampleState : DBState :=
  { orders := [sampleOrder], disputes := [sampleDispute], users := [] }

/-- Sample admin message referring to sampleOrder, with a solver pubkey
payload. -/
def sampleAdminMsg : MessageKind :=
  { version := 1, request_id := none, id := some 10, action := Action.adminSettle,
    trade_index := none, payload := some (Payload.textMessage 42), verify_ok := true }

/-- Sample order sitting in SettledHoldInvoice awaiting buyer payout. -/
def samplePayoutOrder : Order :=
  { id := 20, status := Status.settledHoldInvoice, seller_pubkey := some 3,
    buyer_pubkey := some 4, buyer_invoice := some 9, hash := some 5,
    failed_payment := false, payment_attempts := 0, amount := 1000, fee := 10 }

/-- The order returned by check_failure_retries is the input order with the
failure bookkeeping applied; the buyer notification does not alter it. -/
theorem check_failure_retries_order_eq (retries : Int) (o : Order) :
    (check_failure_retries retries o).order =
      if o.failed_payment = false then
        { o with failed_payment := true, payment_attempts := 0 }
      else if o.payment_attempts < retries then
        { o with payment_attempts := o.payment_attempts + 1 }
      else o := by
  unfold check_failure_retries
  dsimp only
  split <;> rfl

/-- C7 counterexample: on the first failed payout attempt of an order in
SettledHoldInvoice the code sets payment_attempts to 0, not to 1. -/
theorem c7_counterexample :
    samplePayoutOrder.status = Status.settledHoldInvoice ∧
    samplePayoutOrder.failed_payment = false ∧
    (check_failure_retries 3 samplePayoutOrder).order.payment_attempts = 0 ∧
    ¬ (check_failure_retries 3 samplePayoutOrder).order.payment_attempts = 1 := by
  decide

/-- C7 (amended): when a payout attempt fails on an order in
SettledHoldInvoice, the order retains that status; the first failure sets
failed_payment and leaves payment_attempts at 0, and each further failure
below the retry bound increments payment_attempts by one. -/
theorem c7_retry_behavior (retries : Int) (o : Order)
    (h : o.status = Status.settledHoldInvoice) :
    (check_failure_retries retries o).order.status = Status.settledHoldInvoice ∧
    (o.failed_payment = false →
      (check_failure_retries retries o).order.failed_payment = true ∧
      (check_failure_retries retries o).order.payment_attempts = 0) ∧
    (o.failed_payment = true → o.payment_attempts < retries →
      (check_failure_retries retries o).order.payment_attempts =
        o.payment_attempts + 1) := by
  rw [check_failure_retries_order_eq]
  split_ifs with h1 h2 <;> simp_all

/-- C7 witness: the amended statement evaluated on samplePayoutOrder. -/
theorem c7_retry_behavior_witness :
    (check_failure_retries 3 samplePayoutOrder).order.status =
      Status.settledHoldInvoice ∧
    (samplePayoutOrder.failed_payment = false →
      (check_failure_retries 3 samplePayoutOrder).order.failed_payment = true ∧
      (check_failure_retries 3 samplePayoutOrder).order.payment_attempts = 0) ∧
    (samplePayoutOrder.failed_payment = true →
      samplePayoutOrder.payment_attempts < 3 →
      (check_failure_retries 3 samplePayoutOrder).order.payment_attempts =
        samplePayoutOrder.payment_attempts + 1) :=
  c7_retry_behavior 3 samplePayoutOrder (by decide)

/-- C10 counterexample: an already-failed order whose attempt counter is
above the configured bound passes through check_failure_retries with the
counter still above the bound. -/
theorem c10_counterexample :
    (3 : Int) <
      (check_failure_retries 3
        { samplePayoutOrder with
          failed_payment := true,
          payment_attempts := 5 }).order.payment_attempts := by
  decide

/-- C10 (amended): the order returned by check_failure_retries always has
failed_payment set; the attempt counter never exceeds the configured bound
provided it did not already exceed it on entry; a first failure resets the
counter to 0; and the status field is left unchanged. -/
theorem c10_retry_invariants (retries : Int) (o : Order) (hr : 0 ≤ retries) :
    (check_failure_retries retries o).order.failed_payment = true ∧
    (o.payment_attempts ≤ retries →
      (check_failure_retries retries o).order.payment_attempts ≤ retries) ∧
    (o.failed_payment = false →
      (check_failure_retries retries o).order.payment_attempts = 0) ∧
    (check_failure_retries retries o).order.status = o.status := by
  rw [check_failure_retries_order_eq]
  split_ifs with h1 h2 <;> refine ⟨?_, ?_, ?_, ?_⟩ <;> simp_all <;> omega

/-- C10 witness: the amended invariants evaluated on samplePayoutOrder. -/
theorem c10_retry_invariants_witness :
    (check_failure_retries 3 samplePayoutOrder).order.failed_payment = true ∧
    (samplePayoutOrder.payment_attempts ≤ 3 →
      (check_failure_retries 3 samplePayoutOrder).order.payment_attempts ≤ 3) ∧
    (samplePayoutOrder.failed_payment = false →
      (check_failure_retries 3 samplePayoutOrder).order.payment_attempts = 0) ∧
    (check_failure_retries 3 samplePayoutOrder).order.status =
      samplePayoutOrder.status :=
  c10_retry_invariants 3 samplePayoutOrder (by decide)

/-- Any admin_settle_action call over an existing order leaves the store
unchanged and returns a MostroCantDo error: the inverted
CooperativelyCanceled status check makes the settlement tail unreachable. -/
theorem admin_settle_always_rejects (sender admin_pk : PubKey) (m : MessageKind)
    (st : DBState) (oid : Nat) (ord : Order)
    (hid : m.id = some oid) (hord : findOrder st.orders oid = some ord) :
    (admin_settle_action sender admin_pk m st).st = st ∧
    ∃ c, (admin_settle_action sender admin_pk m st).err =
      some (MostroError.mostroCantDo c) := by
  unfold admin_settle_action
  simp only [hid, hord]
  by_cases hia : is_assigned_solver st admin_pk sender oid = false
  · rw [if_pos hia]
    exact ⟨rfl, CantDoReason.isNotYourDispute, rfl⟩
  · rw [if_neg hia]
    unfold Order.check_status
    by_cases hc : ord.status = Status.cooperativelyCanceled
    · rw [if_pos hc, if_neg (show ¬ ord.status = Status.dispute by rw [hc]; simp)]
      exact ⟨rfl, CantDoReason.notAllowedByStatus, rfl⟩
    · rw [if_neg hc]
      exact ⟨rfl, CantDoReason.isNotYourDispute, rfl⟩

/-- C1 counterexample: an AdminSettle message from the solver assigned to
the dispute of sampleOrder, who is not the admin key, produces no CantDo
reply message at all; the handler only returns a MostroCantDo error that
the dispatcher logs. -/
theorem c1_counterexample :
    (2 : PubKey) ≠ (1 : PubKey) ∧
    sampleDispute.solver_pubkey = some 2 ∧
    (admin_settle_action 2 1 sampleAdminMsg sampleState).msgs = [] ∧
    (admin_settle_action 2 1 sampleAdminMsg sampleState).err =
      some (MostroError.mostroCantDo CantDoReason.isNotYourDispute) := by
  decide

/-- C1 (amended): for AdminCancel and AdminAddSolver a non-admin sender
receives a CantDo reply and the store is left unchanged; for AdminSettle a
non-admin sender likewise leaves the store unchanged but the rejection is
a returned MostroCantDo error, not a CantDo reply message. -/
theorem c1_admin_gate (sender rumor_pk admin_pk : PubKey) (m : MessageKind)
    (st : DBState) (oid np : Nat) (ord : Order)
    (hsender : sender ≠ admin_pk)
    (hid : m.id = some oid)
    (hord : findOrder st.orders oid = some ord)
    (hpl : m.payload = some (Payload.textMessage np)) :
    (admin_cancel_action sender admin_pk m st).st = st ∧
    (admin_cancel_action sender admin_pk m st).msgs =
      [OutMsg.cantDo sender (some ord.id) none] ∧
    (admin_add_solver_action sender rumor_pk admin_pk m st).st = st ∧
    (admin_add_solver_action sender rumor_pk admin_pk m st).msgs =
      [OutMsg.cantDo rumor_pk none none] ∧
    (admin_settle_action sender admin_pk m st).st = st ∧
    (∃ c, (admin_settle_action sender admin_pk m st).err =
      some (MostroError.mostroCantDo c)) := by
  have hsettle := admin_settle_always_rejects sender admin_pk m st oid ord hid hord
  have hcancel :
      admin_cancel_action sender admin_pk m st =
        { HandlerResult.base st with
          msgs := [OutMsg.cantDo sender (some ord.id) none] } := by
    unfold admin_cancel_action
    simp only [hid, hord]
    rw [if_pos hsender]
  have hadd :
      admin_add_solver_action sender rumor_pk admin_pk m st =
        { HandlerResult.base st with msgs := [OutMsg.cantDo rumor_pk none none] } := by
    unfold admin_add_solver_action
    simp only [hpl]
    rw [if_pos hsender]
  exact ⟨by rw [hcancel]; rfl, by rw [hcancel], by rw [hadd]; rfl,
    by rw [hadd], hsettle.1, hsettle.2⟩

/-- C1 witness: the amended statement at sender 2, admin key 1, over
sampleState. -/
theorem c1_admin_gate_witness :
    (admin_cancel_action 2 1 sampleAdminMsg sampleState).st = sampleState ∧
    (admin_cancel_action 2 1 sampleAdminMsg sampleState).msgs =
      [OutMsg.cantDo 2 (some sampleOrder.id) none] ∧
    (admin_add_solver_action 2 2 1 sampleAdminMsg sampleState).st = sampleState ∧
    (admin_add_solver_action 2 2 1 sampleAdminMsg sampleState).msgs =
      [OutMsg.cantDo 2 none none] ∧
    (admin_settle_action 2 1 sampleAdminMsg sampleState).st = sampleState ∧
    (∃ c, (admin_settle_action 2 1 sampleAdminMsg sampleState).err =
      some (MostroError.mostroCantDo c)) :=
  c1_admin_gate 2 2 1 sampleAdminMsg sampleState 10 42 sampleOrder
    (by decide) rfl (by decide) rfl

/-- C5: an AdminSettle over a disputed order whose dispute is assigned to
solver v, sent by a key that is neither v nor the admin, is rejected with
IsNotYourDispute, emits no message, and leaves orders and disputes
untouched. -/
theorem c5_solver_gate (sender admin_pk v : PubKey) (m : MessageKind)
    (st : DBState) (oid : Nat) (ord : Order) (d : Dispute)
    (hid : m.id = some oid)
    (hord : findOrder st.orders oid = some ord)
    (hstatus : ord.status = Status.dispute)
    (hd : find_dispute_by_order_id st.disputes oid = some d)
    (hsolver : d.solver_pubkey = some v)
    (hnv : sender ≠ v)
    (hna : sender ≠ admin_pk) :
    (admin_settle_action sender admin_pk m st).err =
      some (MostroError.mostroCantDo CantDoReason.isNotYourDispute) ∧
    (admin_settle_action sender admin_pk m st).st = st ∧
    (admin_settle_action sender admin_pk m st).msgs = [] := by
  have hias : is_assigned_solver st admin_pk sender oid = false := by
    simp only [is_assigned_solver, hd, hsolver, Bool.or_eq_false_iff,
      decide_eq_false_iff_not, Option.some_inj]
    exact ⟨hna, fun h => hnv h.symm⟩
  unfold admin_settle_action
  simp only [hid, hord]
  rw [if_pos hias]
  exact ⟨rfl, rfl, rfl⟩

/-- C5 witness: sender 5 is neither the assigned solver 2 nor the admin 1,
and is rejected over sampleState. -/
theorem c5_solver_gate_witness :
    (admin_settle_action 5 1 sampleAdminMsg sampleState).err =
      some (MostroError.mostroCantDo CantDoReason.isNotYourDispute) ∧
    (admin_settle_action 5 1 sampleAdminMsg sampleState).st = sampleState ∧
    (admin_settle_action 5 1 sampleAdminMsg sampleState).msgs = [] :=
  c5_solver_gate 5 1 2 sampleAdminMsg sampleState 10 sampleOrder sampleDispute
    rfl (by decide) (by decide) (by decide) (by decide) (by decide) (by decide)

/-- C4: evaluation of admin_settle_action at the failing input.  The admin
key 1 sends AdminSettle over sampleOrder, which is in status Dispute with
an assigned solver, yet the handler returns CantDo(IsNotYourDispute),
changes nothing and settles no invoice, because the source requires
check_status(CooperativelyCanceled) to succeed before it ever checks
Dispute; and over a CooperativelyCanceled order the handler even emits a
CooperativeCancelAccepted message before failing the Dispute check. -/
theorem c4_admin_settle_never_settles :
    sampleOrder.status = Status.dispute ∧
    (admin_settle_action 1 1 sampleAdminMsg sampleState).err =
      some (MostroError.mostroCantDo CantDoReason.isNotYourDispute) ∧
    (admin_settle_action 1 1 sampleAdminMsg sampleState).st = sampleState ∧
    (admin_settle_action 1 1 sampleAdminMsg sampleState).invoice_settled = false ∧
    (admin_settle_action 1 1 sampleAdminMsg
        { sampleState with
          orders := [{ sampleOrder with status := Status.cooperativelyCanceled }] }).msgs =
      [OutMsg.cooperativeCancelAccepted 1 (some 10)] := by
  decide

/-- C6: the Release handler settles the hold invoice and moves the order
to SettledHoldInvoice exactly when the order status is Active, FiatSent or
Dispute and the sender is the seller key recorded on the order; in every
other case it sends a CantDo reply to the sender and leaves the store
unchanged. -/
theorem c6_release_gate (sender : PubKey) (m : MessageKind) (st : DBState)
    (oid : Nat) (ord : Order) (spk : PubKey)
    (hid : m.id = some oid)
    (hord : findOrder st.orders oid = some ord)
    (hsp : ord.seller_pubkey = some spk) :
    (((ord.status = Status.active ∨ ord.status = Status.fiatSent ∨
        ord.status = Status.dispute) ∧ sender = spk) →
      (release_action sender m st).invoice_settled = true ∧
      (release_action sender m st).st.orders =
        updateOrderStatus st.orders ord.id Status.settledHoldInvoice) ∧
    (¬ ((ord.status = Status.active ∨ ord.status = Status.fiatSent ∨
        ord.status = Status.dispute) ∧ sender = spk) →
      (release_action sender m st).invoice_settled = false ∧
      (release_action sender m st).st = st ∧
      (release_action sender m st).msgs =
        [OutMsg.cantDo sender (some ord.id) none]) := by
  unfold release_action
  simp only [hid, hord, hsp]
  constructor
  · rintro ⟨hstat, hkey⟩
    have hc1 : ¬ (ord.status ≠ Status.active ∧ ord.status ≠ Status.fiatSent ∧
        ord.status ≠ Status.dispute) := by tauto
    have hc2 : ¬ sender ≠ spk := fun h => h hkey
    rw [if_neg hc1, if_neg hc2]
    cases hb : ord.buyer_pubkey <;> exact ⟨rfl, rfl⟩
  · intro hneg
    by_cases hstat : ord.status = Status.active ∨ ord.status = Status.fiatSent ∨
        ord.status = Status.dispute
    · have hkey : sender ≠ spk := fun h => hneg ⟨hstat, h⟩
      have hc1 : ¬ (ord.status ≠ Status.active ∧ ord.status ≠ Status.fiatSent ∧
          ord.status ≠ Status.dispute) := by tauto
      rw [if_neg hc1, if_pos hkey]
      exact ⟨rfl, rfl, rfl⟩
    · have hc1 : ord.status ≠ Status.active ∧ ord.status ≠ Status.fiatSent ∧
        ord.status ≠ Status.dispute := by tauto
      rw [if_pos hc1]
      exact ⟨rfl, rfl, rfl⟩

/-- C6 witness: the release gate evaluated over sampleState, whose order
is in Dispute with seller key 3. -/
theorem c6_release_gate_witness :
    (((sampleOrder.status = Status.active ∨ sampleOrder.status = Status.fiatSent ∨
        sampleOrder.status = Status.dispute) ∧ (3 : PubKey) = 3) →
      (release_action 3 sampleAdminMsg sampleState).invoice_settled = true ∧
      (release_action 3 sampleAdminMsg sampleState).st.orders =
        updateOrderStatus sampleState.orders sampleOrder.id Status.settledHoldInvoice) ∧
    (¬ ((sampleOrder.status = Status.active ∨ sampleOrder.status = Status.fiatSent ∨
        sampleOrder.status = Status.dispute) ∧ (3 : PubKey) = 3) →
      (release_action 3 sampleAdminMsg sampleState).invoice_settled = false ∧
      (release_action 3 sampleAdminMsg sampleState).st = sampleState ∧
      (release_action 3 sampleAdminMsg sampleState).msgs =
        [OutMsg.cantDo 3 (some sampleOrder.id) none]) :=
  c6_release_gate 3 sampleAdminMsg sampleState 10 sampleOrder 3
    rfl (by decide) (by decide)

/-- Sample user row with trade index 5. -/
def sampleUser : User := { pubkey := 7, trade_index := 5, is_solver := false }

/-- Sample user table. -/
def sampleUsers : List User := [sampleUser]

/-- Sample NewOrder message declaring trade index 3. -/
def sampleTradeMsg : MessageKind :=
  { version := 1, request_id := none, id := some 10, action := Action.newOrder,
    trade_index := some 3, payload := none, verify_ok := true }

/-- Signature by key 7 over sampleTradeMsg. -/
def sampleTradeSig : Sig := { signer := 7, signed := sampleTradeMsg }

/-- Sample rumor carrying sampleTradeMsg, signed by its sender key 7. -/
def sampleTradeRumor : Rumor :=
  { pubkey := 7, created_at := 1000,
    content := InnerContent.wellFormed sampleTradeMsg sampleTradeSig }

/-- Sample unwrapped gift wrap from sender 7. -/
def sampleTradeGift : UnwrappedGift :=
  { sender := 7, rumor := sampleTradeRumor }

/-- Sample well-formed outer event that passes every check of the loop. -/
def sampleTradeEvent : OuterEvent :=
  { kind := 1059, pubkey := 99, pow_ok := true, sig_ok := true,
    unwrapped := some sampleTradeGift }

/-- Sample outer event whose signature verification fails. -/
def sampleBadSigEvent : OuterEvent := { sampleTradeEvent with sig_ok := false }

/-- Sample rumor whose content does not parse as [Message, Signature]. -/
def sampleMalformedRumor : Rumor :=
  { pubkey := 7, created_at := 1000, content := InnerContent.malformed }

/-- Sample outer event carrying an unparseable rumor. -/
def sampleMalformedEvent : OuterEvent :=
  { sampleTradeEvent with unwrapped := some { sender := 7, rumor := sampleMalformedRumor } }

/-- When every pipeline check passes, the loop iteration dispatches the
message action with the user table and messages produced by
check_trade_index. -/
theorem processEvent_dispatch (now : Nat) (users : List User) (ev : OuterEvent)
    (ug : UnwrappedGift) (m : MessageKind) (s : Sig)
    (hpow : ev.pow_ok = true) (hkind : ev.kind = giftWrapKind)
    (hun : ev.unwrapped = some ug)
    (hfresh : ¬ ug.rumor.created_at < since_time now)
    (hcontent : ug.rumor.content = InnerContent.wellFormed m s)
    (hsig : verify_signature m ug.rumor.pubkey s = true)
    (hver : m.verify_ok = true) :
    processEvent now users ev =
      { outcome := Outcome.handled
        users := (check_trade_index users ug.sender m s).1
        msgs := (check_trade_index users ug.sender m s).2
        dispatched := some m.action } := by
  unfold processEvent
  rw [if_neg (show ¬ ev.pow_ok = false by rw [hpow]; simp),
      if_neg (show ¬ ev.kind ≠ giftWrapKind by rw [hkind]; simp)]
  simp only [hun]
  rw [if_neg hfresh]
  simp only [hcontent]
  rw [if_neg (show ¬ verify_signature m ug.rumor.pubkey s = false by rw [hsig]; simp),
      if_pos (show m.verify_ok = true from hver)]

/-- Reduction of check_trade_index when the sender has a user row and the
message declares a trade index. -/
theorem check_trade_index_existing (users : List User) (sender : PubKey)
    (m : MessageKind) (s : Sig) (u : User) (n : Int)
    (hact : m.action = Action.newOrder ∨ m.action = Action.takeBuy ∨
      m.action = Action.takeSell)
    (huser : users.find? (fun x => x.pubkey == sender) = some u)
    (hindex : m.trade_index = some n) :
    check_trade_index users sender m s =
      if n > u.trade_index ∧ verify_signature m sender s = true then
        (update_user_index users sender n, [])
      else
        (users, [OutMsg.cantDo sender m.id (some CantDoReason.invalidTradeIndex)]) := by
  unfold check_trade_index
  rw [if_pos hact]
  simp only [huser, MessageKind.has_trade_index, hindex]

/-- C2 counterexample: a NewOrder with declared index 3 against a stored
index 5 is rejected and a CantDo(InvalidTradeIndex) reply is sent, yet the
action is still dispatched to its handler: rejection does not abort
dispatch. -/
theorem c2_counterexample :
    (processEvent 1000 sampleUsers sampleTradeEvent).msgs =
      [OutMsg.cantDo 7 (some 10) (some CantDoReason.invalidTradeIndex)] ∧
    (processEvent 1000 sampleUsers sampleTradeEvent).dispatched =
      some Action.newOrder := by
  decide

/-- C2 (amended): for a trade-creating message from a sender with a user
row, the trade index update is accepted exactly when the declared index
exceeds the stored one and the inner signature was made by the sender; on
rejection a CantDo(InvalidTradeIndex) reply is sent, but dispatch is not
aborted: the action handler still runs in either case. -/
theorem c2_trade_index (now : Nat) (users : List User) (ev : OuterEvent)
    (ug : UnwrappedGift) (m : MessageKind) (s : Sig) (u : User) (n : Int)
    (hpow : ev.pow_ok = true)
    (hkind : ev.kind = giftWrapKind)
    (hun : ev.unwrapped = some ug)
    (hfresh : ¬ ug.rumor.created_at < since_time now)
    (hcontent : ug.rumor.content = InnerContent.wellFormed m s)
    (hsig : verify_signature m ug.rumor.pubkey s = true)
    (haction : m.action = Action.newOrder ∨ m.action = Action.takeBuy ∨
      m.action = Action.takeSell)
    (huser : users.find? (fun x => x.pubkey == ug.sender) = some u)
    (hindex : m.trade_index = some n)
    (hver : m.verify_ok = true) :
    (processEvent now users ev).dispatched = some m.action ∧
    ((n > u.trade_index ∧ verify_signature m ug.sender s = true) →
      (processEvent now users ev).users = update_user_index users ug.sender n ∧
      (processEvent now users ev).msgs = []) ∧
    (¬ (n > u.trade_index ∧ verify_signature m ug.sender s = true) →
      (processEvent now users ev).users = users ∧
      (processEvent now users ev).msgs =
        [OutMsg.cantDo ug.sender m.id (some CantDoReason.invalidTradeIndex)]) := by
  have hrun := processEvent_dispatch now users ev ug m s hpow hkind hun hfresh
    hcontent hsig hver
  have hcti := check_trade_index_existing users ug.sender m s u n haction huser hindex
  rw [hrun]
  by_cases hacc : n > u.trade_index ∧ verify_signature m ug.sender s = true
  · rw [hcti, if_pos hacc]
    exact ⟨rfl, fun _ => ⟨rfl, rfl⟩, fun h => absurd hacc h⟩
  · rw [hcti, if_neg hacc]
    exact ⟨rfl, fun h => absurd h hacc, fun _ => ⟨rfl, rfl⟩⟩

/-- C2 witness: the amended statement at the sample trade event, whose
declared index 3 does not exceed the stored index 5. -/
theorem c2_trade_index_witness :
    (processEvent 1000 sampleUsers sampleTradeEvent).dispatched =
      some sampleTradeMsg.action ∧
    (((3 : Int) > sampleUser.trade_index ∧
        verify_signature sampleTradeMsg sampleTradeGift.sender sampleTradeSig = true) →
      (processEvent 1000 sampleUsers sampleTradeEvent).users =
        update_user_index sampleUsers sampleTradeGift.sender 3 ∧
      (processEvent 1000 sampleUsers sampleTradeEvent).msgs = []) ∧
    (¬ ((3 : Int) > sampleUser.trade_index ∧
        verify_signature sampleTradeMsg sampleTradeGift.sender sampleTradeSig = true) →
      (processEvent 1000 sampleUsers sampleTradeEvent).users = sampleUsers ∧
      (processEvent 1000 sampleUsers sampleTradeEvent).msgs =
        [OutMsg.cantDo sampleTradeGift.sender sampleTradeMsg.id
          (some CantDoReason.invalidTradeIndex)]) :=
  c2_trade_index 1000 sampleUsers sampleTradeEvent sampleTradeGift sampleTradeMsg
    sampleTradeSig sampleUser 3 rfl rfl rfl (by decide) rfl (by decide)
    (Or.inl rfl) (by decide) rfl rfl

/-- C3: evaluation of the loop at the failing input.  An outer event whose
signature verification fails is still unwrapped, passes the remaining
checks and is dispatched to its handler; the source only logs a warning
for the failed verification instead of skipping the event. -/
theorem c3_outer_sig_not_terminal :
    sampleBadSigEvent.sig_ok = false ∧
    (processEvent 1000 sampleUsers sampleBadSigEvent).outcome = Outcome.handled ∧
    (processEvent 1000 sampleUsers sampleBadSigEvent).dispatched =
      some Action.newOrder := by
  decide

/-- C8: a rumor is discarded as stale exactly when its created_at lies
strictly before now minus ten seconds; rumors at or after the bound,
future-dated ones included, pass the freshness check. -/
theorem c8_freshness (now : Nat) (users : List User) (ev : OuterEvent)
    (ug : UnwrappedGift)
    (hpow : ev.pow_ok = true) (hkind : ev.kind = giftWrapKind)
    (hun : ev.unwrapped = some ug) (hnow : 10 ≤ now) (hbound : now < 2 ^ 64) :
    ((processEvent now users ev).outcome = Outcome.droppedStale ↔
      ug.rumor.created_at < now - 10) := by
  have hbn : now < 18446744073709551616 := by norm_num at hbound; exact hbound
  have hst : since_time now = now - 10 := by
    unfold since_time castU64
    have h64 : (2 : Int) ^ 64 = 18446744073709551616 := by norm_num
    rw [h64]
    omega
  unfold processEvent
  rw [if_neg (show ¬ ev.pow_ok = false by rw [hpow]; simp),
      if_neg (show ¬ ev.kind ≠ giftWrapKind by rw [hkind]; simp)]
  simp only [hun, hst]
  by_cases h : ug.rumor.created_at < now - 10
  · rw [if_pos h]
    simp [h]
  · rw [if_neg h]
    simp only [h, iff_false]
    cases hc : ug.rumor.content with
    | malformed => simp
    | wellFormed m2 s2 =>
      dsimp only
      by_cases hv : verify_signature m2 ug.rumor.pubkey s2 = false
      · rw [if_pos hv]; simp
      · rw [if_neg hv]
        by_cases hw : m2.verify_ok = true
        · rw [if_pos hw]; simp
        · rw [if_neg hw]; simp

/-- C8 witness: the freshness bound evaluated at the sample trade event,
whose rumor timestamp 1000 equals now and therefore passes. -/
theorem c8_freshness_witness :
    ((processEvent 1000 sampleUsers sampleTradeEvent).outcome =
        Outcome.droppedStale ↔
      sampleTradeGift.rumor.created_at < 1000 - 10) :=
  c8_freshness 1000 sampleUsers sampleTradeEvent sampleTradeGift
    rfl rfl rfl (by decide) (by decide)

/-- C9: evaluation of the loop at the failing input.  An event whose rumor
content is not a well-formed encoding of [Message, Signature] reaches the
panicking serde_json unwrap of the source, terminating the process instead
of logging and continuing; crashedParse embeds that panic. -/
theorem c9_malformed_content_crash :
    (processEvent 1000 sampleUsers sampleMalformedEvent).outcome =
      Outcome.crashedParse ∧
    (processEvent 1000 sampleUsers sampleMalformedEvent).dispatched = none := by
  decide

end Mostro
